import Mathlib

/-!
# Snap2Motion — verification of the backend-selection / adaptive-dispatch core

Shallow embedding of the TypeScript sources:
* `src/lib/schema.ts`  — `resolveInputKeys` (Schema Resolver)
* `src/lib/prompt.ts`  — `buildDirectorPrompt` (Prompt Compositor, director convention)
* `src/app/page.tsx`   — `buildHfPrompt`, `looksLikeHfGpuAbort`, the HF
  candidate × attempt-profile degradation loop, `extractVideoUrlFromGradio`,
  `generateLocalLiteVideo` progress reporting, `pickBestEndpoint`
* `src/app/api/predict/route.ts` — the POST handler's input assembly
* `src/app/api/predict/[id]/route.ts` — `pickVideoUrl`

JavaScript numbers are modelled as `ℚ` (all arithmetic here is exact),
`Math.round` as Mathlib's `round` (both are ⌊x + 1/2⌋), strings as `String`
with explicit character-list helpers for `includes` / `startsWith` /
`toLowerCase` so that every predicate evaluates by `decide`/`rfl`.
-/

/-- `hay` starts with `needle` (character lists). Backs JS `startsWith`. -/
def charsStart : List Char → List Char → Bool
  | [], _ => true
  | _ :: _, [] => false
  | a :: as, b :: bs => a == b && charsStart as bs

/-- `needle` occurs contiguously inside `hay`. Backs JS `String.prototype.includes`. -/
def charsContain (needle : List Char) : List Char → Bool
  | [] => charsStart needle []
  | c :: rest => charsStart needle (c :: rest) || charsContain needle rest

/-- JS `s.includes(sub)`. -/
def strIncludes (s sub : String) : Bool := charsContain sub.data s.data

/-- JS `s.startsWith(pre)`. -/
def strStarts (s pre : String) : Bool := charsStart pre.data s.data

/-- JS `s.toLowerCase()` (ASCII, which is all the source compares). -/
def lowerStr (s : String) : String := ⟨s.data.map Char.toLower⟩

/-- `lc` from `src/lib/schema.ts`: `String(x ?? "").toLowerCase()`; an absent
value stringifies to the empty string. -/
def lc (x : Option String) : String := lowerStr (x.getD "")

/-! ## Schema Resolver (`src/lib/schema.ts`) -/

/-- The metadata of one property of the remote model's `Input` schema.
Fields the source reads through `p?.…` are `Option`s; `enum` values are kept
after the source's `String(...)` coercion. -/
structure FieldProp where
  type : Option String := none
  format : Option String := none
  title : Option String := none
  description : Option String := none
  enumVals : List String := []
deriving DecidableEq

/-- The `Input` schema: ordered `properties` (JS `Object.keys` order) and the
`required` name list. -/
structure InputSchema where
  properties : List (String × FieldProp) := []
  required : List String := []
deriving DecidableEq

structure ResolvedInputKeys where
  promptKey : String
  imageKey : Option String
  durationKey : Option String
  seedKey : Option String
  extraDefaults : List (String × String)
deriving DecidableEq

/-- `findKey` from `resolveInputKeys`: first property (declaration order)
satisfying the predicate, returning its name. -/
def findKey (props : List (String × FieldProp)) (pred : String → FieldProp → Bool) :
    Option String :=
  (props.find? fun kp => pred kp.1 kp.2).map (·.1)

/-- The prompt-role rule of `resolveInputKeys`: keyword "prompt" in name or
title, defaulting to the literal `"prompt"`. -/
def promptKeyOf (s : InputSchema) : String :=
  (findKey s.properties fun k p =>
    strIncludes (lc (some k)) "prompt" || strIncludes (lc p.title) "prompt").getD "prompt"

/-- `looksLikeImage` in `resolveInputKeys`: keyword "image" in name, title or
description (case-insensitive). -/
def looksLikeImageField (k : String) (p : FieldProp) : Bool :=
  strIncludes (lc (some k)) "image" || strIncludes (lc p.title) "image" ||
    strIncludes (lc p.description) "image"

/-- The primary image-role predicate: `looksLikeImage` and then
`t === "string" || f === "uri"`. -/
def imagePrimary (k : String) (p : FieldProp) : Bool :=
  if !looksLikeImageField k p then false
  else lc p.type == "string" || lc p.format == "uri"

/-- The image-role fallback: any required field with `format: "uri"`. -/
def imageFallback (required : List String) (k : String) (p : FieldProp) : Bool :=
  required.contains k && lc p.format == "uri"

/-- The image-role rule of `resolveInputKeys` (primary `?? `fallback). -/
def imageKeyOf (s : InputSchema) : Option String :=
  match findKey s.properties imagePrimary with
  | some k => some k
  | none => findKey s.properties (imageFallback s.required)

/-- The duration-role rule of `resolveInputKeys`. -/
def durationKeyOf (s : InputSchema) : Option String :=
  match findKey s.properties fun k p =>
      strIncludes (lc (some k)) "duration" || strIncludes (lc p.title) "duration" ||
        strIncludes (lc (some k)) "seconds" with
  | some k => some k
  | none =>
    findKey s.properties fun k _ =>
      strIncludes (lc (some k)) "video_length" || strIncludes (lc (some k)) "length"

/-- The seed-role rule of `resolveInputKeys`. -/
def seedKeyOf (s : InputSchema) : Option String :=
  findKey s.properties fun k p => lc (some k) == "seed" || lc p.title == "seed"

/-- One iteration of the `for (const k of required)` loop populating
`extraDefaults`: skip keys claimed by the other roles, else look for an
enum value suggesting image-to-video mode. -/
def extraDefaultEntry (s : InputSchema) (k : String) : Option (String × String) :=
  if k == promptKeyOf s || some k == imageKeyOf s || some k == durationKeyOf s ||
      some k == seedKeyOf s then none
  else
    let p := (s.properties.find? fun kp => kp.1 == k).map (·.2)
    let enumVals := (p.map (·.enumVals)).getD []
    (enumVals.find? fun v =>
      strIncludes (lc (some v)) "image" || strIncludes (lc (some v)) "i2v").map
      fun v => (k, v)

/-- `resolveInputKeys` from `src/lib/schema.ts`, lines 15–75. -/
def resolveInputKeys (s : InputSchema) : ResolvedInputKeys :=
  { promptKey := promptKeyOf s, imageKey := imageKeyOf s, durationKey := durationKeyOf s,
    seedKey := seedKeyOf s,
    extraDefaults := s.required.filterMap (extraDefaultEntry s) }

example :
    resolveInputKeys
      { properties :=
          [("caption", { title := some "Video Prompt" }),
           ("ref_image", { type := some "string", format := some "uri" }),
           ("seconds", { type := some "integer" }),
           ("seed", { type := some "integer" })],
        required := [] } =
      { promptKey := "caption", imageKey := some "ref_image",
        durationKey := some "seconds", seedKey := some "seed", extraDefaults := [] } := by
  decide

/-! ## Capability Scorer (`pickBestEndpoint`, `src/app/page.tsx`) -/

/-- One declared parameter of an endpoint; the source reads
`String(p?.parameter_name ?? "")` and `String(p?.component ?? "")`. -/
structure EndpointParam where
  parameterName : Option String := none
  component : Option String := none
deriving DecidableEq

structure EndpointInfo where
  parameters : List EndpointParam := []
deriving DecidableEq

/-- `api.named_endpoints` / `api.unnamed_endpoints` in `Object.entries` order
(integer-like keys enumerate in ascending numeric order). -/
structure ApiDescription where
  namedEndpoints : List (String × EndpointInfo) := []
  unnamedEndpoints : List (Nat × EndpointInfo) := []
deriving DecidableEq

inductive EndpointId where
  | named (s : String)
  | idx (n : Nat)
deriving DecidableEq

/-- `scoreEndpoint` body: +5 image, +5 prompt, +2 duration, +1 steps,
plus the named-endpoint bonus. -/
def scoreEndpoint (params : List EndpointParam) (bonusNamed : Nat) : Nat :=
  let lowerNames := params.map fun p => lowerStr (p.parameterName.getD "")
  let comps := params.map fun p => lowerStr (p.component.getD "")
  let hasImage :=
    lowerNames.any (fun n => strIncludes n "image") || comps.any (fun c => strIncludes c "image")
  let hasPrompt :=
    lowerNames.any (fun n => n == "prompt" || (strIncludes n "prompt" && !strIncludes n "negative")) ||
      comps.any fun c => strIncludes c "textbox"
  (if hasImage then 5 else 0) + (if hasPrompt then 5 else 0) +
    (if lowerNames.any fun n => strIncludes n "duration" then 2 else 0) +
    (if lowerNames.any fun n => strIncludes n "steps" then 1 else 0) + bonusNamed

/-- The entry pushed onto `scored` (the source also stores `info`, which is
never consulted for the selection result). -/
structure ScoredEndpoint where
  endpoint : EndpointId
  score : Nat
deriving DecidableEq

/-- Named endpoints scored with bonus 1 (in order), then unnamed with bonus 0. -/
def scoredList (api : ApiDescription) : List ScoredEndpoint :=
  (api.namedEndpoints.map fun ni =>
    { endpoint := .named ni.1, score := scoreEndpoint ni.2.parameters 1 }) ++
  api.unnamedEndpoints.map fun ii =>
    { endpoint := .idx ii.1, score := scoreEndpoint ii.2.parameters 0 }

/-- Stable insertion for the descending sort: an element goes before the first
strictly smaller score, after equal ones that were enumerated earlier —
matching the stable JS `sort((a, b) => b.score - a.score)`. -/
def insertDesc (x : ScoredEndpoint) : List ScoredEndpoint → List ScoredEndpoint
  | [] => [x]
  | y :: ys => if y.score ≤ x.score then x :: y :: ys else y :: insertDesc x ys

/-- Stable descending sort by score. -/
def sortDesc : List ScoredEndpoint → List ScoredEndpoint
  | [] => []
  | x :: xs => insertDesc x (sortDesc xs)

/-- `pickBestEndpoint`: `scored.sort(...); return scored[0]?.endpoint ?? "/predict"`.
The `"/predict"` default applies only when `scored` is empty (`??` tests
null/undefined, not falsiness). -/
def pickBestEndpoint (api : ApiDescription) : EndpointId :=
  match sortDesc (scoredList api) with
  | [] => .named "/predict"
  | x :: _ => x.endpoint

/-! ## Degradation Controller (`startHuggingFace`, `src/app/page.tsx`) -/

/-- `looksLikeHfGpuAbort` from `src/app/page.tsx`: case-insensitive substring
match against the fixed overload/quota/timeout signatures. -/
def looksLikeHfGpuAbort (msg : String) : Bool :=
  let m := lowerStr msg
  strIncludes m "gpu task aborted" ||
  strIncludes m "zerogpu worker error" ||
  strIncludes m "insufficient gpu" ||
  strIncludes m "insufficient gpu time" ||
  strIncludes m "quota" ||
  strIncludes m "requested" ||
  strIncludes m "timed out" ||
  strIncludes m "overloaded"

/-- Result of one (candidate, profile) attempt: the whole `try` block —
connect, introspect, invoke, extract — either yields a video URL or throws
with a message. -/
inductive AttemptOutcome where
  | success (url : String)
  | failure (msg : String)

/-- The inner `for (let attempt = 0; …)` loop over attempt profiles for one
candidate Space: on success return; on a failure matching
`looksLikeHfGpuAbort` continue with the next profile; otherwise `break`
(abandon the candidate). Returns the attempts performed and the url if any. -/
def tryProfiles {C P : Type} (outcome : C → P → AttemptOutcome) (c : C) :
    List P → List (C × P) × Option String
  | [] => ([], none)
  | p :: ps =>
    match outcome c p with
    | .success u => ([(c, p)], some u)
    | .failure msg =>
      if looksLikeHfGpuAbort msg then
        let r := tryProfiles outcome c ps
        ((c, p) :: r.1, r.2)
      else ([(c, p)], none)

/-- The outer `for (const spaceId of candidateSpaces)` loop: run the profile
loop per candidate; stop on the first success, else move to the next
candidate with the full profile list again. -/
def runController {C P : Type} (outcome : C → P → AttemptOutcome) :
    List C → List P → List (C × P) × Option String
  | [], _ => ([], none)
  | c :: cs, ps =>
    let r := tryProfiles outcome c ps
    match r.2 with
    | some u => (r.1, some u)
    | none =>
      let r2 := runController outcome cs ps
      (r.1 ++ r2.1, r2.2)

/-! ## Prompt Compositor — director convention (`src/lib/prompt.ts`) -/

inductive CameraMove where
  | static | push_in | pull_out | pan_left | pan_right | tilt_up | tilt_down
  | truck_left | truck_right | pedestal_up | pedestal_down | zoom_in | zoom_out
  | tracking | shake
deriving DecidableEq

/-- `cameraMoveToBracket` from `src/lib/prompt.ts`. -/
def cameraMoveToBracket : CameraMove → String
  | .static => "[Static shot]"
  | .push_in => "[Push in]"
  | .pull_out => "[Pull out]"
  | .pan_left => "[Pan left]"
  | .pan_right => "[Pan right]"
  | .tilt_up => "[Tilt up]"
  | .tilt_down => "[Tilt down]"
  | .truck_left => "[Truck left]"
  | .truck_right => "[Truck right]"
  | .pedestal_up => "[Pedestal up]"
  | .pedestal_down => "[Pedestal down]"
  | .zoom_in => "[Zoom in]"
  | .zoom_out => "[Zoom out]"
  | .tracking => "[Tracking shot]"
  | .shake => "[Shake]"

inductive VisualStyle where
  | cinematic | realistic | anime | dreamy | retro
deriving DecidableEq

/-- `STYLE_HINTS` record from `src/lib/prompt.ts`. -/
def styleHints : VisualStyle → String
  | .cinematic => "cinematic lighting, film look, shallow depth of field"
  | .realistic => "photorealistic, natural lighting, realistic motion"
  | .anime => "anime style, vibrant colors, clean line art"
  | .dreamy => "soft dreamy atmosphere, bokeh, gentle glow"
  | .retro => "retro 90s vibe, film grain, muted palette"

inductive MotionIntensity where
  | subtle | medium | strong
deriving DecidableEq

/-- The nested conditional computing `intensityHint` in `buildDirectorPrompt`. -/
def intensityHint : MotionIntensity → String
  | .subtle => "subtle motion"
  | .medium => "smooth motion"
  | .strong => "dynamic motion"

/-- `const dur = Math.max(2, Math.min(6, Math.round(durationSec)));`
(`Math.round` and Mathlib's `round` are both ⌊x + 1/2⌋). -/
def dirDur (durationSec : ℚ) : ℤ := max 2 (min 6 (round durationSec))

structure DirectorArgs where
  userPrompt : String
  camera : CameraMove
  durationSec : ℚ
  style : VisualStyle
  motionIntensity : MotionIntensity

/-- `buildDirectorPrompt` from `src/lib/prompt.ts`: the template literal
`` `${bracket} ${userPrompt}. ${STYLE_HINTS[style]}. ${intensityHint}. ${dur}-second shot.` ``. -/
def buildDirectorPrompt (args : DirectorArgs) : String :=
  cameraMoveToBracket args.camera ++ " " ++ args.userPrompt ++ ". " ++
    styleHints args.style ++ ". " ++ intensityHint args.motionIntensity ++ ". " ++
    toString (dirDur args.durationSec) ++ "-second shot."

/-! ## Prompt Compositor — HF plain-English convention (`src/app/page.tsx`) -/

inductive CameraMoveHF where
  | cnone | push_in | pull_out | pan_left | pan_right | tilt_up | tilt_down
  | orbit_left | orbit_right
deriving DecidableEq

/-- `cameraMoveToNaturalText` from `src/app/page.tsx` (`default` covers `none`). -/
def cameraMoveToNaturalText : CameraMoveHF → String
  | .push_in => "slow push-in (dolly in)"
  | .pull_out => "slow pull-out (dolly out)"
  | .pan_left => "slow pan left"
  | .pan_right => "slow pan right"
  | .tilt_up => "slow tilt up"
  | .tilt_down => "slow tilt down"
  | .orbit_left => "slow orbit left"
  | .orbit_right => "slow orbit right"
  | .cnone => "static camera"

/-- `intensityToNaturalText` from `src/app/page.tsx`. -/
def intensityToNaturalText : MotionIntensity → String
  | .subtle => "subtle, gentle motion"
  | .strong => "strong, dynamic motion"
  | .medium => "moderate, natural motion"

structure HfPromptOpts where
  userPrompt : String
  motionIntensity : MotionIntensity
  durationSec : ℚ
  cameraMove : CameraMoveHF

/-- `buildHfPrompt` from `src/app/page.tsx`: embeds `opts.durationSec` as-is
(the numeric value; decimal formatting of the interpolation is abstracted by
`toString`). -/
def buildHfPrompt (opts : HfPromptOpts) : String :=
  opts.userPrompt ++ ". " ++ intensityToNaturalText opts.motionIntensity ++
    ". Camera: " ++ cameraMoveToNaturalText opts.cameraMove ++ ". Duration ~" ++
    toString opts.durationSec ++ "s. Smooth, cinematic animation."

/-- `clamp(n, lo, hi) = Math.max(lo, Math.min(hi, n))` from `src/app/page.tsx`. -/
def clampQ (n lo hi : ℚ) : ℚ := max lo (min hi n)

/-- `durationSafe = clamp(durationSec, 2, 6)` (the memo in `src/app/page.tsx`). -/
def durationSafe (durationSec : ℚ) : ℚ := clampQ durationSec 2 6

structure AttemptProfile where
  maxSide : Nat
  duration : ℚ
  stepsMul : ℚ
deriving DecidableEq

/-- The `attemptProfiles` array in `startHuggingFace`, built from
`durationSafe` and the resize toggle. -/
def attemptProfiles (hfResizeEnabled : Bool) (dSafe : ℚ) : List AttemptProfile :=
  [⟨if hfResizeEnabled then 768 else 10000, dSafe, 1⟩,
   ⟨if hfResizeEnabled then 512 else 10000, min dSafe 4, 17/20⟩,
   ⟨if hfResizeEnabled then 384 else 10000, 2, 3/4⟩]

/-! ## Local Fallback Renderer (`generateLocalLiteVideo`, `src/app/page.tsx`) -/

/-- `frames = Math.max(12, Math.round(durationSec * fps))` with `fps = 24`. -/
def framesCount (durationSec : ℚ) : ℕ := (max 12 (round (durationSec * 24))).toNat

/-- The percentage reported at frame `i`:
`Math.round((i / (frames - 1)) * 100)`. -/
def localProgress (durationSec : ℚ) (i : ℕ) : ℤ :=
  round (((i : ℚ) / ((framesCount durationSec : ℚ) - 1)) * 100)

/-! ## Output-URL extraction: Gradio shape (`extractVideoUrlFromGradio`,
`src/app/page.tsx`) vs Replicate shape (`pickVideoUrl`,
`src/app/api/predict/[id]/route.ts`) -/

/-- A value stored under an object's `url` field: either a string or a
function whose call stringifies to `s` (`String(first.url())`). Any other
value behaves as "absent" in both extraction routines (the `typeof` tests
fail), so it is modelled by leaving the field `none`. -/
inductive UrlField where
  | ustr (s : String)
  | ufn (s : String)
deriving DecidableEq

/-- The untyped JS values the two extraction routines inspect. Objects are
flattened to the four fields the routines read (`url`, `path`, `video`,
`data`); a non-string `path` behaves exactly like an absent one in both
routines, so `path` is `Option String`. -/
inductive JVal where
  | jnull
  | jstr (s : String)
  | jarr (elems : List JVal)
  | jobj (url : Option UrlField) (path : Option String) (video : Option JVal)
      (dataF : Option JVal)

/-- JS truthiness for the modelled values (`null`/`""` falsy; arrays and
objects truthy). -/
def jtruthy : JVal → Bool
  | .jnull => false
  | .jstr s => !(s == "")
  | .jarr _ => true
  | .jobj _ _ _ _ => true

/-- `typeof v?.url === "string" && v.url.startsWith("http")` → that string. -/
def urlHttp : Option UrlField → Option String
  | some (.ustr s) => if strStarts s "http" then some s else none
  | _ => none

/-- `typeof v?.path === "string" && v.path.startsWith("http")` → that string. -/
def pathHttp : Option String → Option String
  | some s => if strStarts s "http" then some s else none
  | none => none

/-- `typeof v?.data === "string" && v.data.startsWith("http")` → that string. -/
def dataHttp : Option JVal → Option String
  | some (.jstr s) => if strStarts s "http" then some s else none
  | _ => none

/-- `tryOne` inside `extractVideoUrlFromGradio`: sequential checks; note that
a truthy `video` field causes `return tryOne(v.video)` even when that
recursive call yields null, skipping the `data` check. -/
def tryOne : JVal → Option String
  | .jnull => none
  | .jstr s => if strStarts s "http" then some s else none
  | .jarr _ => none
  | .jobj url path video dataF =>
    match urlHttp url with
    | some s => some s
    | none =>
      match pathHttp path with
      | some s => some s
      | none =>
        match video with
        | some v => if jtruthy v then tryOne v else dataHttp dataF
        | none => dataHttp dataF

/-- `extractVideoUrlFromGradio` from `src/app/page.tsx`:
`const data = result?.data ?? result;` then iterate `Array.isArray(data) ?
data : [data]` returning the first truthy `tryOne` hit (`tryOne` never
returns the falsy `""` since its hits start with `"http"`). -/
def extractVideoUrlFromGradio (result : JVal) : Option String :=
  let dataV : JVal :=
    match result with
    | .jobj _ _ _ (some .jnull) => result
    | .jobj _ _ _ (some d) => d
    | _ => result
  let items : List JVal :=
    match dataV with
    | .jarr xs => xs
    | v => [v]
  items.findSome? tryOne

/-- `pickVideoUrl` from `src/app/api/predict/[id]/route.ts`: accepts a bare
string (no `http` check), the first array element as string or via its `url`
(function or string, again no `http` check), or the object's `url`. -/
def pickVideoUrl : JVal → Option String
  | .jnull => none
  | .jstr s => if s == "" then none else some s
  | .jarr xs =>
    match xs.head? with
    | none => none
    | some first =>
      if !jtruthy first then none
      else
        match first with
        | .jstr s => some s
        | .jobj url _ _ _ =>
          (match url with
           | some (.ufn s) => some s
           | some (.ustr s) => some s
           | none => none)
        | _ => none
  | .jobj url _ _ _ =>
    match url with
    | some (.ufn s) => some s
    | some (.ustr s) => some s
    | none => none

/-! ## Queue-based submission (`POST`, `src/app/api/predict/route.ts`) -/

/-- A value placed into the submission payload. -/
inductive InputVal where
  | str (s : String)
  | num (q : ℚ)
  | intv (n : ℤ)
  | image
deriving DecidableEq

/-- The observable outcome of the input-assembly slice of `POST`: either the
400 response returned before any submission, or the
`replicate.predictions.create({version, input})` call with its payload
(looked up by key, JS last-assignment-wins semantics). -/
inductive PostOutcome where
  | badRequest (msg : String)
  | created (version : String) (input : String → Option InputVal)

/-- The 400 message of `POST` when no image key was resolved. -/
def schemaMissingImageMsg : String :=
  "This model schema did not expose an image input. Pick a model that supports image-to-video."

/-- The fallback mapping used when `openapi_schema` is missing
(`src/app/api/predict/route.ts`, lines 88–95). -/
def fallbackResolved : ResolvedInputKeys :=
  { promptKey := "prompt", imageKey := some "image", durationKey := none,
    seedKey := some "seed", extraDefaults := [] }

/-- JS truthiness of `string | undefined` keys (`if (resolved.durationKey)`,
`if (resolved.imageKey)`: the empty string is falsy). -/
def truthyKey : Option String → Option String
  | some k => if k = "" then none else some k
  | none => none

/-- `const resolved = openapi ? resolveInputKeys(openapi) : {…fallback…}`. -/
def resolvedOf (openapi : Option InputSchema) : ResolvedInputKeys :=
  match openapi with
  | some o => resolveInputKeys o
  | none => fallbackResolved

/-- The input-assembly and dispatch slice of `POST`
(`src/app/api/predict/route.ts`, lines 109–135): spread `extraDefaults`,
assign the director prompt under `promptKey`, optionally duration and seed,
then either attach the image under `imageKey` and create the prediction, or
return the 400 before any submission. -/
def postDispatch (openapi : Option InputSchema) (version directorPrompt : String)
    (durationSec : ℚ) (seed : Option ℤ) : PostOutcome :=
  let resolved := resolvedOf openapi
  let input0 : String → Option InputVal := fun k =>
    if k = resolved.promptKey then some (.str directorPrompt)
    else (resolved.extraDefaults.find? fun kv => kv.1 = k).map fun kv => .str kv.2
  let input1 : String → Option InputVal :=
    match truthyKey resolved.durationKey with
    | some dk => fun k => if k = dk then some (.num durationSec) else input0 k
    | none => input0
  let input2 : String → Option InputVal :=
    match truthyKey resolved.seedKey, seed with
    | some sk, some n => fun k => if k = sk then some (.intv n) else input1 k
    | _, _ => input1
  match truthyKey resolved.imageKey with
  | some ik => .created version fun k => if k = ik then some .image else input2 k
  | none => .badRequest schemaMissingImageMsg

/-! ## Theorems -/

/-- **C6** — Schema Resolver totality: for every schema description with zero
fields (any `required` list, no properties), `resolveInputKeys` returns a
mapping — totally, never throwing — with `promptKey = "prompt"` and
`imageKey`, `durationKey`, `seedKey` absent and no extra defaults. -/
theorem C6_resolver_total_zero_fields (req : List String) :
    resolveInputKeys { properties := [], required := req } =
      { promptKey := "prompt", imageKey := none, durationKey := none,
        seedKey := none, extraDefaults := [] } := by
  simp [resolveInputKeys, promptKeyOf, imageKeyOf, durationKeyOf, seedKeyOf,
    extraDefaultEntry, findKey, List.filterMap_eq_nil_iff]

/-- **C7** — Schema Resolver `extraDefaults` invariant: every key of the
returned `extraDefaults` is listed in the schema's `required` set and is
distinct from the resolved prompt/image/duration/seed keys. -/
theorem C7_extraDefaults_invariant (s : InputSchema) (k v : String)
    (h : (k, v) ∈ (resolveInputKeys s).extraDefaults) :
    k ∈ s.required ∧ k ≠ (resolveInputKeys s).promptKey ∧
      (resolveInputKeys s).imageKey ≠ some k ∧
      (resolveInputKeys s).durationKey ≠ some k ∧
      (resolveInputKeys s).seedKey ≠ some k := by
  simp only [resolveInputKeys] at h ⊢
  obtain ⟨a, ha, hEntry⟩ := List.mem_filterMap.mp h
  unfold extraDefaultEntry at hEntry
  by_cases hguard :
      (a == promptKeyOf s || some a == imageKeyOf s || some a == durationKeyOf s ||
        some a == seedKeyOf s) = true
  · rw [if_pos hguard] at hEntry
    exact absurd hEntry (by simp)
  · rw [if_neg hguard] at hEntry
    obtain ⟨w, -, hkv⟩ := Option.map_eq_some'.mp hEntry
    have hak : a = k := congrArg Prod.fst hkv
    subst hak
    simp only [Bool.or_eq_true, beq_iff_eq, not_or] at hguard
    push_neg at hguard
    obtain ⟨⟨⟨h1, h2⟩, h3⟩, h4⟩ := hguard
    exact ⟨ha, h1, Ne.symm h2, Ne.symm h3, Ne.symm h4⟩

def c7Schema : InputSchema :=
  { properties := [("mode", { enumVals := ["t2v", "i2v"] })], required := ["mode"] }

/-- Witness for C7: a required mode-selector field with an "i2v" enum value
really lands in `extraDefaults`, and the invariant holds there. -/
theorem C7_witness :
    "mode" ∈ c7Schema.required ∧ "mode" ≠ (resolveInputKeys c7Schema).promptKey ∧
      (resolveInputKeys c7Schema).imageKey ≠ some "mode" ∧
      (resolveInputKeys c7Schema).durationKey ≠ some "mode" ∧
      (resolveInputKeys c7Schema).seedKey ≠ some "mode" :=
  C7_extraDefaults_invariant c7Schema "mode" "i2v" (by decide)

/-- **C3**, counterexample — the claim says the primary image rule fires only
when the declared type is string; but the code's test is the disjunction
`t === "string" || f === "uri"`, so a field named "image" with declared type
`"integer"` and format `"uri"` IS chosen as the image role. -/
theorem C3_counterexample :
    (resolveInputKeys
      { properties := [("image", { type := some "integer", format := some "uri" })],
        required := [] }).imageKey = some "image" ∧
    ("integer" : String) ≠ "string" := by
  decide

/-- **C3**, amended — a field is assigned the image role only when its
name/title/description case-insensitively contains "image" AND (its declared
type is exactly "string" OR its declared format is "uri") — a disjunction,
not a conjunction with string-typedness — or via the fallback: it is
required and its format is "uri". -/
theorem C3_image_role_amended (s : InputSchema) (k : String)
    (h : (resolveInputKeys s).imageKey = some k) :
    ∃ p, (k, p) ∈ s.properties ∧
      ((looksLikeImageField k p = true ∧ (lc p.type = "string" ∨ lc p.format = "uri")) ∨
        (k ∈ s.required ∧ lc p.format = "uri")) := by
  simp only [resolveInputKeys] at h
  unfold imageKeyOf at h
  have fromFind :
      ∀ (pred : String → FieldProp → Bool), findKey s.properties pred = some k →
        ∃ p, (k, p) ∈ s.properties ∧ pred k p = true := by
    intro pred hfind
    obtain ⟨kp, hkp, hfst⟩ := Option.map_eq_some'.mp hfind
    have hmem := List.mem_of_find?_eq_some hkp
    have hpred := List.find?_some hkp
    exact ⟨kp.2, by rwa [show (k, kp.2) = kp from Prod.ext hfst.symm rfl], by
      rwa [show k = kp.1 from hfst.symm]⟩
  cases hfind : findKey s.properties imagePrimary with
  | some k' =>
    rw [hfind] at h
    have h2 : some k' = some k := h
    obtain rfl := Option.some_inj.mp h2
    obtain ⟨p, hmem, hpred⟩ := fromFind imagePrimary hfind
    refine ⟨p, hmem, Or.inl ?_⟩
    by_cases hImg : looksLikeImageField k' p = true
    · simp only [imagePrimary, hImg, Bool.not_true, Bool.false_eq_true, if_false,
        Bool.or_eq_true, beq_iff_eq] at hpred
      exact ⟨hImg, hpred⟩
    · have hImgF : looksLikeImageField k' p = false := by
        cases hb : looksLikeImageField k' p
        · rfl
        · exact absurd hb hImg
      simp [imagePrimary, hImgF] at hpred
  | none =>
    rw [hfind] at h
    obtain ⟨p, hmem, hpred⟩ := fromFind (imageFallback s.required) h
    refine ⟨p, hmem, Or.inr ?_⟩
    simp only [imageFallback, Bool.and_eq_true, beq_iff_eq] at hpred
    exact ⟨List.mem_of_elem_eq_true hpred.1, hpred.2⟩

def c3Schema : InputSchema :=
  { properties :=
      [("caption", { title := some "Video Prompt" }),
       ("ref_image", { type := some "string", format := some "uri" })],
    required := [] }

/-- Witness for the amended C3 at the spec's own example schema. -/
theorem C3_witness :
    ∃ p, ("ref_image", p) ∈ c3Schema.properties ∧
      ((looksLikeImageField "ref_image" p = true ∧
          (lc p.type = "string" ∨ lc p.format = "uri")) ∨
        ("ref_image" ∈ c3Schema.required ∧ lc p.format = "uri")) :=
  C3_image_role_amended c3Schema "ref_image" (by decide)

/-- The named-endpoint bonus is a lower bound on the score. -/
theorem scoreEndpoint_bonus_le (params : List EndpointParam) (b : Nat) :
    b ≤ scoreEndpoint params b := by
  simp only [scoreEndpoint]
  exact Nat.le_add_left b _

/-- Inserting an element whose score dominates the list puts it in front. -/
theorem insertDesc_of_ge (x : ScoredEndpoint) (l : List ScoredEndpoint)
    (h : ∀ y ∈ l, y.score ≤ x.score) : insertDesc x l = x :: l := by
  cases l with
  | nil => rfl
  | cons y ys => simp [insertDesc, h y (List.mem_cons_self y ys)]

/-- A list of endpoints with one constant score is left unchanged by the
stable descending sort. -/
theorem sortDesc_const_score (l : List ScoredEndpoint) (n : Nat)
    (h : ∀ y ∈ l, y.score = n) : sortDesc l = l := by
  induction l with
  | nil => rfl
  | cons x xs ih =>
    rw [sortDesc, ih fun y hy => h y (List.mem_cons_of_mem x hy)]
    exact insertDesc_of_ge x xs fun y hy =>
      le_of_eq ((h y (List.mem_cons_of_mem x hy)).trans (h x (List.mem_cons_self x xs)).symm)

def c2Api : ApiDescription :=
  { namedEndpoints := [], unnamedEndpoints := [(0, { parameters := [] })] }

/-- **C2**, counterexample — an API description with a single unnamed
endpoint with no parameters: every endpoint scores exactly zero, yet
`pickBestEndpoint` returns that zero-scoring endpoint (index 0), NOT the
conventional `"/predict"` default (`?? "/predict"` only applies when the
scored list is empty). -/
theorem C2_counterexample :
    (∀ e ∈ scoredList c2Api, e.score = 0) ∧
      pickBestEndpoint c2Api ≠ EndpointId.named "/predict" ∧
      pickBestEndpoint c2Api = EndpointId.idx 0 := by
  refine ⟨?_, by decide, by decide⟩
  decide

/-- **C2**, amended — when no endpoint scores above zero, every endpoint is
unnamed (named ones always earn the +1 bonus) and `pickBestEndpoint`
returns the FIRST unnamed endpoint (a zero-scorer) when any endpoint
exists; the `"/predict"` default is returned only when the API description
exposes no endpoint at all. -/
theorem C2_default_amended (api : ApiDescription)
    (h : ∀ e ∈ scoredList api, e.score = 0) :
    api.namedEndpoints = [] ∧
      pickBestEndpoint api =
        match api.unnamedEndpoints.head? with
        | some ie => EndpointId.idx ie.1
        | none => EndpointId.named "/predict" := by
  have hnamed : api.namedEndpoints = [] := by
    cases hn : api.namedEndpoints with
    | nil => rfl
    | cons ni rest =>
      exfalso
      have hmem : (⟨.named ni.1, scoreEndpoint ni.2.parameters 1⟩ : ScoredEndpoint) ∈
          scoredList api := by
        unfold scoredList
        rw [hn]
        exact List.mem_append_left _ (List.mem_map_of_mem _ (List.mem_cons_self ni rest))
      have := h _ hmem
      have hb := scoreEndpoint_bonus_le ni.2.parameters 1
      simp only at this
      omega
  refine ⟨hnamed, ?_⟩
  have hscored : scoredList api =
      api.unnamedEndpoints.map fun ii =>
        { endpoint := .idx ii.1, score := scoreEndpoint ii.2.parameters 0 } := by
    unfold scoredList
    rw [hnamed]
    simp
  unfold pickBestEndpoint
  rw [hscored, sortDesc_const_score _ 0 (by
    intro y hy
    apply h
    rw [hscored]
    exact hy)]
  cases api.unnamedEndpoints with
  | nil => rfl
  | cons ii rest => rfl

/-- Witness for the amended C2 at the counterexample API. -/
theorem C2_witness :
    c2Api.namedEndpoints = [] ∧
      pickBestEndpoint c2Api =
        match c2Api.unnamedEndpoints.head? with
        | some ie => EndpointId.idx ie.1
        | none => EndpointId.named "/predict" :=
  C2_default_amended c2Api (by decide)

/-- **C1** — Degradation Controller error classification: when an attempt
fails, a message matching the overload signatures makes the controller retry
the SAME candidate with the next profile; a non-matching message abandons
the candidate at once (no further profiles tried); hence when every attempt
fails with a non-overload message, exactly one attempt is made per
candidate (the trace is one first-profile attempt per candidate). -/
theorem C1_error_classification {C P : Type} (outcome : C → P → AttemptOutcome)
    (msg : C → P → String) (hfail : ∀ c p, outcome c p = .failure (msg c p)) :
    (∀ (c : C) (p : P) (ps : List P), looksLikeHfGpuAbort (msg c p) = true →
        tryProfiles outcome c (p :: ps) =
          ((c, p) :: (tryProfiles outcome c ps).1, (tryProfiles outcome c ps).2)) ∧
    (∀ (c : C) (p : P) (ps : List P), looksLikeHfGpuAbort (msg c p) = false →
        tryProfiles outcome c (p :: ps) = ([(c, p)], none)) ∧
    (∀ (cs : List C) (p : P) (ps : List P),
        (∀ c q, looksLikeHfGpuAbort (msg c q) = false) →
        runController outcome cs (p :: ps) = (cs.map fun c => (c, p), none)) := by
  refine ⟨?_, ?_, ?_⟩
  · intro c p ps hAbort
    simp [tryProfiles, hfail c p, hAbort]
  · intro c p ps hAbort
    simp [tryProfiles, hfail c p, hAbort]
  · intro cs p ps hAll
    induction cs with
    | nil => rfl
    | cons c cs ih =>
      have hc : tryProfiles outcome c (p :: ps) = ([(c, p)], none) := by
        simp [tryProfiles, hfail c p, hAll c p]
      simp [runController, hc, ih]

def c1Outcome : String → Nat → AttemptOutcome :=
  fun _ _ => .failure "boom: connection refused"

/-- Witness for C1: two candidate Spaces, three profiles, every attempt
failing with a non-overload message — exactly one attempt per candidate. -/
theorem C1_witness :
    runController c1Outcome ["spaceA", "spaceB"] [0, 1, 2] =
      ([("spaceA", 0), ("spaceB", 0)], none) :=
  (C1_error_classification c1Outcome (fun _ _ => "boom: connection refused")
    fun _ _ => rfl).2.2 ["spaceA", "spaceB"] 0 [1, 2] fun _ _ => by decide

/-- **C5** — Prompt Compositor duration clamping: the duration embedded
textually lies in [2, 6] for every input in both conventions: the director
convention clamps inside `buildDirectorPrompt`, and every HF attempt
profile built from `durationSafe` (the caller-side clamp of the raw UI
duration) carries a duration in [2, 6], embedded as-is by `buildHfPrompt`. -/
theorem C5_duration_clamped (u : String) (cam : CameraMove) (st : VisualStyle)
    (mi : MotionIntensity) (u2 : String) (cam2 : CameraMoveHF) (mi2 : MotionIntensity)
    (d : ℚ) :
    ((2 : ℤ) ≤ dirDur d ∧ dirDur d ≤ 6 ∧
      ∃ pre, buildDirectorPrompt ⟨u, cam, d, st, mi⟩ =
        pre ++ toString (dirDur d) ++ "-second shot.") ∧
    ∀ (hfResize : Bool) (p : AttemptProfile),
      p ∈ attemptProfiles hfResize (durationSafe d) →
      (2 : ℚ) ≤ p.duration ∧ p.duration ≤ 6 ∧
        ∃ pre, buildHfPrompt ⟨u2, mi2, p.duration, cam2⟩ =
          pre ++ toString p.duration ++ "s. Smooth, cinematic animation." := by
  constructor
  · refine ⟨le_max_left _ _, max_le (by norm_num) (min_le_left _ _), ?_⟩
    exact ⟨cameraMoveToBracket cam ++ " " ++ u ++ ". " ++ styleHints st ++ ". " ++
      intensityHint mi ++ ". ", rfl⟩
  · intro hfResize p hp
    have hrange : (2 : ℚ) ≤ p.duration ∧ p.duration ≤ 6 := by
      simp only [attemptProfiles, List.mem_cons, List.not_mem_nil, or_false] at hp
      rcases hp with rfl | rfl | rfl
      · exact ⟨le_max_left _ _, max_le (by norm_num) (min_le_left _ _)⟩
      · refine ⟨le_min (le_max_left _ _) (by norm_num), ?_⟩
        exact le_trans (min_le_right _ _) (by norm_num)
      · norm_num
    refine ⟨hrange.1, hrange.2, ?_⟩
    exact ⟨u2 ++ ". " ++ intensityToNaturalText mi2 ++ ". Camera: " ++
      cameraMoveToNaturalText cam2 ++ ". Duration ~", rfl⟩

/-- Witness for C5 at raw duration 1 (below range): the cheapest profile's
duration is 2 and `buildHfPrompt` embeds exactly it. -/
theorem C5_witness :
    (2 : ℚ) ≤ (AttemptProfile.mk 384 2 (3/4)).duration ∧
      (AttemptProfile.mk 384 2 (3/4)).duration ≤ 6 ∧
      ∃ pre, buildHfPrompt ⟨"b", .medium, (AttemptProfile.mk 384 2 (3/4)).duration, .cnone⟩ =
        pre ++ toString (AttemptProfile.mk 384 2 (3/4)).duration ++
          "s. Smooth, cinematic animation." :=
  (C5_duration_clamped "a" .static .cinematic .medium "b" .cnone .medium 1).2 true
    ⟨384, 2, 3/4⟩ (List.Mem.tail _ (List.Mem.tail _ (List.Mem.head _)))

/-- **C10** — the director convention rounds before clamping: the embedded
number always equals `max 2 (min 6 (round durationSec))`, an integer; e.g.
2.4 embeds 2 and 5.6 embeds 6. -/
theorem C10_round_before_clamp (u : String) (cam : CameraMove) (st : VisualStyle)
    (mi : MotionIntensity) (d : ℚ) :
    (∃ pre, buildDirectorPrompt ⟨u, cam, d, st, mi⟩ =
        pre ++ toString (max 2 (min 6 (round d))) ++ "-second shot.") ∧
    dirDur (12/5) = 2 ∧ dirDur (28/5) = 6 := by
  refine ⟨⟨cameraMoveToBracket cam ++ " " ++ u ++ ". " ++ styleHints st ++ ". " ++
    intensityHint mi ++ ". ", rfl⟩, ?_, ?_⟩
  · norm_num [dirDur, round_eq]
  · norm_num [dirDur, round_eq]

/-- The frame count is always at least 12 (`Math.max(12, …)`). -/
theorem framesCount_ge_twelve (d : ℚ) : 12 ≤ framesCount d := by
  unfold framesCount
  have h := le_max_left (12 : ℤ) (round (d * 24))
  omega

/-- **C9**, counterexample — at the valid duration 6 the loop runs 144
frames and the reported percentages are NOT strictly increasing: frames 1
and 2 both report 1%. -/
theorem C9_counterexample :
    framesCount 6 = 144 ∧ localProgress 6 1 = 1 ∧ localProgress 6 2 = 1 := by
  have h : framesCount 6 = 144 := by unfold framesCount; norm_num [round_eq]; rfl
  refine ⟨h, ?_, ?_⟩ <;> · unfold localProgress; rw [h]; norm_num [round_eq]

/-- **C9**, amended — for every valid duration in [2, 6] the reported
percentages start at 0, end at 100, and never decrease from one frame to
the next; the increase is not strict in general (consecutive frames can
repeat a value once the frame count exceeds 101, e.g. duration 6). -/
theorem C9_progress_amended (d : ℚ) (h2 : 2 ≤ d) (h6 : d ≤ 6) :
    localProgress d 0 = 0 ∧ localProgress d (framesCount d - 1) = 100 ∧
      ∀ i : ℕ, i + 1 ≤ framesCount d - 1 → localProgress d i ≤ localProgress d (i + 1) := by
  have h12 := framesCount_ge_twelve d
  have hcast : (12 : ℚ) ≤ (framesCount d : ℚ) := by exact_mod_cast h12
  have hpos : (0 : ℚ) < (framesCount d : ℚ) - 1 := by linarith
  refine ⟨?_, ?_, ?_⟩
  · simp [localProgress]
  · unfold localProgress
    rw [Nat.cast_sub (by omega), Nat.cast_one, div_self (ne_of_gt hpos)]
    norm_num
  · intro i hi
    unfold localProgress
    rw [round_eq, round_eq]
    apply Int.floor_le_floor
    have hstep : (i : ℚ) / ((framesCount d : ℚ) - 1) ≤
        ((i : ℚ) + 1) / ((framesCount d : ℚ) - 1) := by
      rw [div_le_div_iff₀ hpos hpos]
      nlinarith [hpos]
    have h100 := mul_le_mul_of_nonneg_right hstep (by norm_num : (0 : ℚ) ≤ 100)
    push_cast
    linarith

/-- Witness for the amended C9 at duration 2 (48 frames). -/
theorem C9_witness :
    localProgress 2 0 = 0 ∧ localProgress 2 (framesCount 2 - 1) = 100 ∧
      ∀ i : ℕ, i + 1 ≤ framesCount 2 - 1 → localProgress 2 i ≤ localProgress 2 (i + 1) :=
  C9_progress_amended 2 (by norm_num) (by norm_num)

/-- **C4**, counterexample — the two output-URL extractors are NOT the same
function: on the bare string `"video.mp4"` (no `http` prefix) the queue
dispatcher's `pickVideoUrl` returns it, while the degradation controller's
`extractVideoUrlFromGradio` returns null. -/
theorem C4_counterexample :
    pickVideoUrl (JVal.jstr "video.mp4") = some "video.mp4" ∧
      extractVideoUrlFromGradio (JVal.jstr "video.mp4") = none ∧
      extractVideoUrlFromGradio (JVal.jstr "video.mp4") ≠
        pickVideoUrl (JVal.jstr "video.mp4") := by
  refine ⟨rfl, rfl, by decide⟩

/-- **C4**, amended — the two extractors agree on the common documented
core: an `http`-prefixed string, an object whose `url` field is such a
string, and a nonempty array headed by either; but they are not extensionally
equal (they diverge e.g. on non-`http` strings, callable `url` fields, and
`data`/`path`/`video` wrappers). -/
theorem C4_extraction_agree_amended (s : String) (hs : strStarts s "http" = true) :
    extractVideoUrlFromGradio (JVal.jstr s) = pickVideoUrl (JVal.jstr s) ∧
      extractVideoUrlFromGradio (JVal.jobj (some (.ustr s)) none none none) =
        pickVideoUrl (JVal.jobj (some (.ustr s)) none none none) ∧
      (∀ rest : List JVal,
        extractVideoUrlFromGradio (JVal.jarr (JVal.jstr s :: rest)) =
          pickVideoUrl (JVal.jarr (JVal.jstr s :: rest))) ∧
      (∀ rest : List JVal,
        extractVideoUrlFromGradio
            (JVal.jarr (JVal.jobj (some (.ustr s)) none none none :: rest)) =
          pickVideoUrl (JVal.jarr (JVal.jobj (some (.ustr s)) none none none :: rest))) ∧
      extractVideoUrlFromGradio (JVal.jstr s) = some s := by
  have hne : (s == "") = false := by
    cases hb : s == ""
    · rfl
    · exfalso
      have hsEmpty : s = "" := by simpa using hb
      subst hsEmpty
      exact absurd hs (by decide)
  have htry : tryOne (JVal.jobj (some (.ustr s)) none none none) = some s := by
    simp [tryOne, urlHttp, hs]
  refine ⟨?_, ?_, fun rest => ?_, fun rest => ?_, ?_⟩ <;>
    simp [extractVideoUrlFromGradio, pickVideoUrl, tryOne, urlHttp, jtruthy, hs, hne, htry]

/-- Witness for the amended C4 at a concrete `http` URL. -/
theorem C4_witness :
    extractVideoUrlFromGradio (JVal.jstr "https://x/video.mp4") =
        pickVideoUrl (JVal.jstr "https://x/video.mp4") ∧
      extractVideoUrlFromGradio
          (JVal.jobj (some (.ustr "https://x/video.mp4")) none none none) =
        pickVideoUrl (JVal.jobj (some (.ustr "https://x/video.mp4")) none none none) ∧
      (∀ rest : List JVal,
        extractVideoUrlFromGradio (JVal.jarr (JVal.jstr "https://x/video.mp4" :: rest)) =
          pickVideoUrl (JVal.jarr (JVal.jstr "https://x/video.mp4" :: rest))) ∧
      (∀ rest : List JVal,
        extractVideoUrlFromGradio
            (JVal.jarr
              (JVal.jobj (some (.ustr "https://x/video.mp4")) none none none :: rest)) =
          pickVideoUrl
            (JVal.jarr
              (JVal.jobj (some (.ustr "https://x/video.mp4")) none none none :: rest))) ∧
      extractVideoUrlFromGradio (JVal.jstr "https://x/video.mp4") =
        some "https://x/video.mp4" :=
  C4_extraction_agree_amended "https://x/video.mp4" (by decide)

/-- **C8** — queue-based submission precondition: when the resolved schema
yields no image-capable field, `POST` returns the descriptive 400 error and
never reaches `predictions.create`; and whenever a truthy image key is
resolved, the prediction IS created with the image attached under exactly
that key. -/
theorem C8_image_precondition (openapi : Option InputSchema)
    (version directorPrompt : String) (durationSec : ℚ) (seed : Option ℤ) :
    (∀ o, openapi = some o → (resolveInputKeys o).imageKey = none →
        postDispatch openapi version directorPrompt durationSec seed =
          .badRequest schemaMissingImageMsg) ∧
    (∀ ik, truthyKey (resolvedOf openapi).imageKey = some ik →
        ∃ input,
          postDispatch openapi version directorPrompt durationSec seed =
            .created version input ∧
          input ik = some .image ∧ (resolvedOf openapi).imageKey = some ik) := by
  constructor
  · intro o ho hnone
    subst ho
    simp [postDispatch, resolvedOf, hnone, truthyKey]
  · intro ik hik
    have himg : (resolvedOf openapi).imageKey = some ik := by
      unfold truthyKey at hik
      cases hk : (resolvedOf openapi).imageKey with
      | none => rw [hk] at hik; cases hik
      | some k =>
        rw [hk] at hik
        have hik2 : (if k = "" then none else some k) = some ik := hik
        by_cases hke : k = ""
        · rw [if_pos hke] at hik2; cases hik2
        · rw [if_neg hke] at hik2
          exact hik2
    simp only [postDispatch]
    rw [hik]
    exact ⟨_, rfl, by simp, himg⟩

def c8EmptySchema : InputSchema := { properties := [], required := [] }

/-- Witness for C8: a schema with no image-capable field produces the 400,
and the no-schema fallback (image key `"image"`) produces a creation with
the image attached under `"image"`. -/
theorem C8_witness :
    postDispatch (some c8EmptySchema) "v1" "p" 4 none =
        .badRequest schemaMissingImageMsg ∧
      ∃ input, postDispatch none "v1" "p" 4 none = .created "v1" input ∧
        input "image" = some .image ∧ (resolvedOf none).imageKey = some "image" :=
  ⟨(C8_image_precondition (some c8EmptySchema) "v1" "p" 4 none).1 c8EmptySchema rfl rfl,
    (C8_image_precondition none "v1" "p" 4 none).2 "image" rfl⟩
